import Mathlib

/-!
Shallow embedding of the `tts-api` repository (src/config.py, src/tts_service.py,
src/main.py) and proofs about its caching, synthesis dispatch and cleanup logic.

External effects (the Coqui TTS engine, the filesystem, MD5) are modelled as
explicit parameters of an environment record; the filesystem is the list of
paths for which `os.path.exists` returns true, and the output directory is a
list of directory entries carrying the metadata the code inspects
(`os.path.isfile`, `os.path.getctime`, whether `os.remove` succeeds).
-/

namespace TTSApi

/-- ASCII lowering of one character, the effect of Python `str.lower()` on the
ASCII model identifiers the code compares. -/
def asciiLower (c : Char) : Char :=
  if 65 ≤ c.toNat ∧ c.toNat ≤ 90 then Char.ofNat (c.toNat + 32) else c

/-- Python `s.lower()` (on ASCII strings). -/
def strLower (s : String) : String := ⟨s.data.map asciiLower⟩

/-- Python `sub in s` substring membership. -/
def strContains (s sub : String) : Bool :=
  s.data.tails.any fun t => sub.data.isPrefixOf t

/-- Python `s.endswith(suffix)`. -/
def strEndsWith (s suffix : String) : Bool :=
  suffix.data.isSuffixOf s.data

/-- Python `s.strip()`: drop leading and trailing whitespace. -/
def pyStrip (s : String) : String :=
  ⟨((s.data.dropWhile Char.isWhitespace).reverse.dropWhile Char.isWhitespace).reverse⟩

/-- Python f-string rendering of an `Optional[str]`: `None` prints as "None". -/
def pyShow : Option String → String
  | none => "None"
  | some s => s

/-- Python truthiness of an `Optional[str]`: `None` and `""` are falsy. -/
def pyTruthy : Option String → Bool
  | none => false
  | some s => s ≠ ""

/-- `config.py` `Settings`: the fields the embedded code reads. -/
structure Settings where
  default_model : String
  output_dir : String
  available_models : List String
  max_text_length : Nat
deriving Repr, DecidableEq

/-- The concrete `settings` instance from `config.py`. -/
def settings : Settings :=
  { default_model := "tts_models/multilingual/multi-dataset/xtts_v2"
    output_dir := "./outputs"
    available_models :=
      [ "tts_models/en/ljspeech/tacotron2-DDC"
      , "tts_models/en/ljspeech/glow-tts"
      , "tts_models/en/ljspeech/speedy-speech"
      , "tts_models/en/ljspeech/tacotron2-DCA"
      , "tts_models/en/ljspeech/vits"
      , "tts_models/en/vctk/vits"
      , "tts_models/en/vctk/fast_pitch"
      , "tts_models/multilingual/multi-dataset/xtts_v2"
      , "tts_models/multilingual/multi-dataset/your_tts"
      , "tts_models/multilingual/multi-dataset/bark"
      , "voice_conversion_models/multilingual/vctk/freevc24" ]
    max_text_length := 1000 }

/-- One entry of the output directory as the sweepers see it: its name
(`os.listdir`), whether it is a regular file (`os.path.isfile`), its creation
time (`os.path.getctime`, modelled as an integer timestamp), and whether
`os.remove` on it succeeds (deletion failures are caught and logged). -/
structure DirEntry where
  name : String
  isFile : Bool
  ctime : Int
  removeOk : Bool
deriving Repr, DecidableEq

/-- A file of `dir` is deleted by `TTSService.cleanup_old_files` when it is a
regular file whose age `now - ctime` strictly exceeds the threshold in seconds
and its removal does not raise (`tts_service.py` lines 385-395). -/
def sweepRemoves (now thresholdSecs : Int) (e : DirEntry) : Bool :=
  e.isFile && now - e.ctime > thresholdSecs && e.removeOk

/-- The `for filename in os.listdir(...)` loop body of
`TTSService.cleanup_old_files`: returns the surviving entries and the number of
files removed (`cleaned_count`). -/
def sweepFiles (now thresholdSecs : Int) : List DirEntry → List DirEntry × Nat
  | [] => ([], 0)
  | e :: rest =>
      let (rest', n) := sweepFiles now thresholdSecs rest
      if e.isFile then
        if now - e.ctime > thresholdSecs then
          if e.removeOk then (rest', n + 1) else (e :: rest', n)
        else (e :: rest', n)
      else (e :: rest', n)

/-- `TTSService.cleanup_old_files(max_age_hours)` (`tts_service.py` lines
376-398). Returns the new directory listing, the Python return value of the
function, and the internal `cleaned_count` that is only logged. The function
body has a bare `return` when the directory is missing and falls off the end
otherwise, so its Python return value is `None` on every path. -/
def cleanup_old_files (now : Int) (dirExists : Bool) (dir : List DirEntry)
    (max_age_hours : Int) : List DirEntry × Option Nat × Nat :=
  if !dirExists then (dir, none, 0)
  else
    ((sweepFiles now (max_age_hours * 3600) dir).1, none,
     (sweepFiles now (max_age_hours * 3600) dir).2)

/-- An entry is deleted by one pass of the hourly background `cleanup_task`
(`main.py` lines 274-284) when its name ends in `.wav`, it is a regular file,
its age strictly exceeds 3600 seconds, and removal does not raise. -/
def hourlyRemoves (now : Int) (e : DirEntry) : Bool :=
  strEndsWith e.name ".wav" && e.isFile && now - e.ctime > 3600 && e.removeOk

/-- One iteration of the hourly background `cleanup_task` loop in
`start_cleanup_scheduler` (`main.py` lines 267-287): scans the output
directory, deletes `.wav` regular files older than 3600 seconds, and counts
them (`files_cleaned`). -/
def cleanup_task_iteration (now : Int) : List DirEntry → List DirEntry × Nat
  | [] => ([], 0)
  | e :: rest =>
      let (rest', n) := cleanup_task_iteration now rest
      if strEndsWith e.name ".wav" then
        if e.isFile then
          if now - e.ctime > 3600 then
            if e.removeOk then (rest', n + 1) else (e :: rest', n)
          else (e :: rest', n)
        else (e :: rest', n)
      else (e :: rest', n)

/-- The external world of `TTSService`: MD5, the Coqui engine, and the
attributes the code probes on a loaded model. Each field is a fixed function
of the model name, reflecting that the library's behaviour is deterministic
within one process run. -/
structure Env where
  /-- `hashlib.md5(s.encode()).hexdigest()`: an unspecified deterministic digest. -/
  md5hex : String → String
  /-- The module-level `TTS_AVAILABLE` flag. -/
  ttsAvailable : Bool
  /-- `self.device`, resolved once at service construction. -/
  device : String
  /-- Whether `TTS(model_name).to(device)` succeeds for a given name. -/
  engineLoadOk : String → Bool
  /-- `getattr(tts, 'speakers', None)`: `none` when the attribute is missing or `None`. -/
  speakers : String → Option (List String)
  /-- `getattr(tts, 'languages', None)`: `none` when the attribute is missing or `None`. -/
  languages : String → Option (List String)
  /-- `hasattr(tts, 'tts_to_file')`. -/
  hasTtsToFile : String → Bool
  /-- Whether `TTS().list_models()` succeeds. -/
  listModelsOk : Bool
  /-- The list `TTS().list_models()` returns when it succeeds. -/
  listModels : List String
  /-- Whether the engine's file-producing synthesis call succeeds. -/
  synthOk : Bool
  /-- `str(e)` of the exception a failing synthesis call raises. -/
  synthErr : String
  /-- Whether a failing synthesis call leaves an incomplete file at its target path. -/
  leftoverOnFail : Bool

/-- `self.models`: the model cache, keyed by `_get_model_key`. Loaded engine
instances are opaque; we name each one by the sequence number of its
construction so that cache hits returning the same instance are observable. -/
structure ModelCache where
  models : List (String × Nat)
  nextId : Nat
deriving Repr, DecidableEq

/-- The observable calls into the Coqui engine. -/
inductive Event
  /-- `TTS(model_name).to(device)` was invoked (a cache miss in `load_model`). -/
  | modelLoad (model_name : String)
  /-- A synthesis call (`tts_to_file`, `tts_with_vc_to_file`, or `tts` plus
  `sf.write`) was invoked. -/
  | synth (call : String)
deriving Repr, DecidableEq

/-- `TTSService._get_model_key`: md5 of the model name. -/
def get_model_key (env : Env) (model_name : String) : String :=
  env.md5hex model_name

/-- `TTSService.load_model` (`tts_service.py` lines 114-186): return the cached
engine for the key if present, otherwise construct one and cache it; a failed
construction raises `ValueError` and caches nothing. The XTTS-specific
monkey-patching around the construction only alters library internals and is
not modelled. -/
def load_model (env : Env) (mc : ModelCache) (model_name : String) :
    Except String Nat × ModelCache × List Event :=
  if !env.ttsAvailable then
    (.error "Coqui TTS is not available. Please upgrade Python or use Docker.", mc, [])
  else
    let model_key := get_model_key env model_name
    match mc.models.lookup model_key with
    | some tid => (.ok tid, mc, [])
    | none =>
        if env.engineLoadOk model_name then
          (.ok mc.nextId,
           { models := mc.models ++ [(model_key, mc.nextId)], nextId := mc.nextId + 1 },
           [.modelLoad model_name])
        else
          (.error ("Failed to load model " ++ model_name), mc, [.modelLoad model_name])

/-- `TTSService.get_available_models` (`tts_service.py` lines 188-198): the
engine's model list, falling back to `settings.available_models` when the
library call fails. -/
def get_available_models (S : Settings) (env : Env) : Except String (List String) :=
  if !env.ttsAvailable then
    .error "Coqui TTS is not available. Cannot retrieve model list."
  else if env.listModelsOk then
    .ok env.listModels
  else
    .ok S.available_models

/-- The dictionary `TTSService.get_model_info` builds from the loaded model's
attributes. -/
structure ModelInfo where
  model_name : String
  device : String
  speakers : Option (List String)
  languages : Option (List String)
  is_multi_speaker : Bool
  is_multi_lingual : Bool
deriving Repr, DecidableEq

/-- `TTSService.get_model_info` (`tts_service.py` lines 200-215): load the
model (through the cache) and report its probed capabilities; any failure is
re-raised as `ValueError("Failed to get model info: ...")`. Note the
configured allowlist is not consulted. -/
def get_model_info (env : Env) (mc : ModelCache) (model_name : String) :
    Except String ModelInfo × ModelCache × List Event :=
  match load_model env mc model_name with
  | (.ok _tid, mc', ev) =>
      (.ok { model_name := model_name
             device := env.device
             speakers := env.speakers model_name
             languages := env.languages model_name
             is_multi_speaker := (env.speakers model_name).isSome
             is_multi_lingual := (env.languages model_name).isSome }, mc', ev)
  | (.error e, mc', ev) =>
      (.error ("Failed to get model info: " ++ e), mc', ev)

/-- The `GET /models/{model_name}` handler (`main.py` lines 129-142), reduced
to its HTTP status code: 503 when the service is unavailable, 400 when the
service raises `ValueError`, 200 otherwise. -/
def http_get_model_info (env : Env) (mc : ModelCache) (model_name : String) :
    Nat × ModelCache :=
  if !env.ttsAvailable then (503, mc)
  else
    match get_model_info env mc model_name with
    | (.ok _, mc', _) => (200, mc')
    | (.error _, mc', _) => (400, mc')

/-- Line 264 of `tts_service.py`: the caching digest over (text, model,
speaker, language); `None` options render as the string "None" inside the
Python f-string. -/
def text_hash_for (env : Env) (text model_name : String)
    (speaker language : Option String) : String :=
  env.md5hex (text ++ model_name ++ pyShow speaker ++ pyShow language)

/-- Line 265: the output filename, i.e. the CacheKey stem `tts_<hash>` plus the
format extension. -/
def output_filename_for (env : Env) (text model_name : String)
    (speaker language : Option String) (output_format : String) : String :=
  "tts_" ++ text_hash_for env text model_name speaker language ++ "." ++ output_format

/-- Line 266: `os.path.join(settings.output_dir, output_filename)`. -/
def output_path_for (S : Settings) (env : Env) (text model_name : String)
    (speaker language : Option String) (output_format : String) : String :=
  S.output_dir ++ "/" ++
    output_filename_for env text model_name speaker language output_format

/-- Result of a synthesis call: the Python return value or the `ValueError`
message, plus the model cache, the engine calls made, and the filesystem (the
set of existing paths) after the call. -/
structure SynthOut where
  result : Except String String
  cache : ModelCache
  events : List Event
  fs : List String
deriving Repr

/-- One file-producing engine call inside `_synthesize_with_coqui`. On success
the output file exists afterwards; on failure the `except` block at lines
320-322 wraps the exception in `ValueError("Failed to synthesize speech: ...")`
without any cleanup, so whether an incomplete file is left at `output_path` is
decided by the engine (`env.leftoverOnFail`), not by this code. -/
def engineWrite (env : Env) (mc : ModelCache) (ev : List Event) (fs : List String)
    (call : String) (output_path : String) : SynthOut :=
  if env.synthOk then
    { result := .ok output_path, cache := mc, events := ev ++ [.synth call],
      fs := fs ++ [output_path] }
  else
    { result := .error ("Failed to synthesize speech: " ++ env.synthErr),
      cache := mc, events := ev ++ [.synth call],
      fs := if env.leftoverOnFail then fs ++ [output_path] else fs }

/-- `TTSService._synthesize_with_coqui` (`tts_service.py` lines 242-322).
The model allowlist verification block (lines 252-258) is omitted because the
`ValueError` it raises is itself caught by its own blanket `except Exception`
and only logged ("proceeding anyway"), so the block never fails a request and
has no observable effect. -/
def synthesize_with_coqui (S : Settings) (env : Env) (mc : ModelCache)
    (fs : List String) (text : String) (model_name? : Option String)
    (speaker : Option String) (speaker_wav : Option String)
    (language : Option String) (output_format : String) : SynthOut :=
  let model_name := model_name?.getD S.default_model
  match load_model env mc model_name with
  | (.error e, mc', ev) => { result := .error e, cache := mc', events := ev, fs := fs }
  | (.ok _tid, mc', ev) =>
    let output_path := output_path_for S env text model_name speaker language output_format
    if output_path ∈ fs then
      { result := .ok output_path, cache := mc', events := ev, fs := fs }
    else
      match get_model_info env mc' model_name with
      | (.error e, mc2, ev2) =>
          { result := .error ("Failed to synthesize speech: " ++ e), cache := mc2,
            events := ev ++ ev2, fs := fs }
      | (.ok info, mc2, ev2) =>
          let ev3 := ev ++ ev2
          if pyTruthy speaker_wav then
            let p := speaker_wav.getD ""
            if p ∈ fs then
              if strContains (strLower model_name) "xtts" then
                engineWrite env mc2 ev3 fs "tts_to_file" output_path
              else
                engineWrite env mc2 ev3 fs "tts_with_vc_to_file" output_path
            else
              { result := .error
                  ("Failed to synthesize speech: Speaker wav file not found: " ++ p),
                cache := mc2, events := ev3, fs := fs }
          else if pyTruthy speaker && info.is_multi_speaker then
            engineWrite env mc2 ev3 fs "tts_to_file" output_path
          else if env.hasTtsToFile model_name then
            if pyTruthy language && info.is_multi_lingual then
              engineWrite env mc2 ev3 fs "tts_to_file" output_path
            else
              engineWrite env mc2 ev3 fs "tts_to_file" output_path
          else
            engineWrite env mc2 ev3 fs "tts_and_sf_write" output_path

/-- `TTSService.synthesize_speech` (`tts_service.py` lines 217-238): input
validation, then dispatch to `_synthesize_with_coqui`. -/
def synthesize_speech (S : Settings) (env : Env) (mc : ModelCache)
    (fs : List String) (text : String) (model_name? : Option String)
    (speaker : Option String) (speaker_wav : Option String)
    (language : Option String) (output_format : String) : SynthOut :=
  if text.length > S.max_text_length then
    { result := .error ("Text too long. Maximum length is "
        ++ toString S.max_text_length ++ " characters"),
      cache := mc, events := [], fs := fs }
  else if pyStrip text = "" then
    { result := .error "Text cannot be empty", cache := mc, events := [], fs := fs }
  else if !env.ttsAvailable then
    { result := .error
        "Coqui TTS is not available. Please upgrade to Python 3.11+ or use Docker.",
      cache := mc, events := [], fs := fs }
  else
    synthesize_with_coqui S env mc fs text model_name? speaker speaker_wav language
      output_format

/-! ### Concrete instances used by witnesses and counterexamples -/

/-- A regular non-`.wav` file created at time 0. -/
def oldMp3 : DirEntry := { name := "old.mp3", isFile := true, ctime := 0, removeOk := true }

/-- A regular `.wav` file created at time 0. -/
def oldWav : DirEntry := { name := "old.wav", isFile := true, ctime := 0, removeOk := true }

/-- A regular `.wav` file created at time 100. -/
def freshWav : DirEntry := { name := "fresh.wav", isFile := true, ctime := 100, removeOk := true }

/-- A regular `.wav` file created at time 9000. -/
def midWav : DirEntry := { name := "mid.wav", isFile := true, ctime := 9000, removeOk := true }

/-- A concrete environment: the digest function is the identity, the engine
loads every model, synthesis succeeds, and no model exposes speaker or
language attributes. -/
def idEnv : Env :=
  { md5hex := fun s => s, ttsAvailable := true, device := "cpu",
    engineLoadOk := fun _ => true, speakers := fun _ => none,
    languages := fun _ => none, hasTtsToFile := fun _ => true,
    listModelsOk := false, listModels := [], synthOk := true,
    synthErr := "engine error", leftoverOnFail := false }

/-- `idEnv` with an engine that cannot construct any model. -/
def noLoadEnv : Env := { idEnv with engineLoadOk := fun _ => false }

/-- `idEnv` with an engine whose synthesis call fails after writing an
incomplete file at its target path. -/
def failEnv : Env := { idEnv with synthOk := false, leftoverOnFail := true }

/-- The empty model cache of a freshly constructed service. -/
def emptyCache : ModelCache := { models := [], nextId := 0 }

/-- A model cache already holding one entry under key "m" (as hashed by
`idEnv`, whose digest is the identity). -/
def oneCache : ModelCache := { models := [("m", 0)], nextId := 1 }

/-- The output path `idEnv` produces for the request
(text "hi", default model, no speaker, no language, format "wav"). -/
def hiPath : String :=
  "./outputs/tts_hitts_models/multilingual/multi-dataset/xtts_v2NoneNone.wav"

/-! ### Helper lemmas -/

theorem sweepFiles_eq (now t : Int) (dir : List DirEntry) :
    sweepFiles now t dir =
      (dir.filter (fun e => !sweepRemoves now t e), dir.countP (sweepRemoves now t)) := by
  induction dir with
  | nil => rfl
  | cons e rest ih =>
      simp only [sweepFiles, ih, List.filter_cons, List.countP_cons, sweepRemoves]
      by_cases h1 : e.isFile <;> by_cases h2 : now - e.ctime > t <;>
        by_cases h3 : e.removeOk <;> simp [h1, h2, h3]

theorem cleanup_task_iteration_eq (now : Int) (dir : List DirEntry) :
    cleanup_task_iteration now dir =
      (dir.filter (fun e => !hourlyRemoves now e), dir.countP (hourlyRemoves now)) := by
  induction dir with
  | nil => rfl
  | cons e rest ih =>
      simp only [cleanup_task_iteration, ih, List.filter_cons, List.countP_cons, hourlyRemoves]
      by_cases h0 : strEndsWith e.name ".wav" <;> by_cases h1 : e.isFile <;>
        by_cases h2 : now - e.ctime > 3600 <;> by_cases h3 : e.removeOk <;>
        simp [h0, h1, h2, h3]

theorem lookup_append_none {l : List (String × Nat)} {k : String} {v : Nat}
    (h : l.lookup k = none) : (l ++ [(k, v)]).lookup k = some v := by
  induction l with
  | nil => simp [List.lookup]
  | cons p rest ih =>
      rcases p with ⟨a, b⟩
      by_cases hk : k == a
      · simp [List.lookup, hk] at h
      · simp only [List.cons_append, List.lookup, Bool.not_eq_true] at h ⊢
        rw [Bool.not_eq_true] at hk
        rw [hk] at h ⊢
        exact ih h

theorem load_model_cached (env : Env) (mc : ModelCache) (m : String) (tid : Nat)
    (hav : env.ttsAvailable = true)
    (hc : mc.models.lookup (get_model_key env m) = some tid) :
    load_model env mc m = (.ok tid, mc, []) := by
  simp [load_model, hav, hc]

theorem load_model_miss (env : Env) (mc : ModelCache) (m : String)
    (hav : env.ttsAvailable = true) (hload : env.engineLoadOk m = true)
    (hmc : mc.models.lookup (get_model_key env m) = none) :
    load_model env mc m =
      (.ok mc.nextId,
       { models := mc.models ++ [(get_model_key env m, mc.nextId)],
         nextId := mc.nextId + 1 },
       [.modelLoad m]) := by
  simp [load_model, hav, hmc, hload]

theorem load_model_ok (env : Env) (mc : ModelCache) (m : String)
    (hav : env.ttsAvailable = true) (hload : env.engineLoadOk m = true) :
    ∃ tid mc2 ev, load_model env mc m = (.ok tid, mc2, ev) ∧
      mc.models ⊆ mc2.models ∧
      mc2.models.lookup (get_model_key env m) = some tid ∧
      (∀ c, Event.synth c ∉ ev) := by
  rcases hc : mc.models.lookup (get_model_key env m) with _ | tid
  · exact ⟨mc.nextId, _, _, load_model_miss env mc m hav hload hc,
      List.subset_append_left _ _, lookup_append_none hc, by simp⟩
  · exact ⟨tid, mc, [], load_model_cached env mc m tid hav hc,
      List.Subset.refl _, hc, by simp⟩

theorem load_model_preserves (env : Env) (mc : ModelCache) (m : String) :
    mc.models ⊆ (load_model env mc m).2.1.models := by
  unfold load_model
  by_cases hav : env.ttsAvailable
  · rcases hc : mc.models.lookup (get_model_key env m) with _ | tid
    · by_cases hl : env.engineLoadOk m <;>
        simp [hav, hc, hl, List.subset_append_left]
    · simp [hav, hc]
  · simp [hav]

theorem get_model_info_preserves (env : Env) (mc : ModelCache) (m : String) :
    mc.models ⊆ (get_model_info env mc m).2.1.models := by
  have h := load_model_preserves env mc m
  unfold get_model_info
  rcases hl : load_model env mc m with ⟨r, mc2, ev⟩
  rw [hl] at h
  cases r <;> simpa using h

theorem engineWrite_cache (env : Env) (mc : ModelCache) (ev : List Event)
    (fs : List String) (c p : String) : (engineWrite env mc ev fs c p).cache = mc := by
  unfold engineWrite; split <;> rfl

theorem synthesize_speech_valid (S : Settings) (env : Env) (mc : ModelCache)
    (fs : List String) (text : String)
    (model_name? speaker speaker_wav language : Option String) (output_format : String)
    (hlen : ¬ text.length > S.max_text_length) (hne : ¬ pyStrip text = "")
    (hav : env.ttsAvailable = true) :
    synthesize_speech S env mc fs text model_name? speaker speaker_wav language output_format
      = synthesize_with_coqui S env mc fs text model_name? speaker speaker_wav language
          output_format := by
  simp [synthesize_speech, hlen, hne, hav]

theorem synth_coqui_cache_hit (S : Settings) (env : Env) (mc mc2 : ModelCache)
    (fs : List String) (text : String)
    (model_name? speaker speaker_wav language : Option String) (output_format : String)
    (tid : Nat) (ev : List Event)
    (hl : load_model env mc (model_name?.getD S.default_model) = (.ok tid, mc2, ev))
    (hhit : output_path_for S env text (model_name?.getD S.default_model) speaker language
        output_format ∈ fs) :
    synthesize_with_coqui S env mc fs text model_name? speaker speaker_wav language
        output_format
      = { result := .ok (output_path_for S env text (model_name?.getD S.default_model)
              speaker language output_format),
          cache := mc2, events := ev, fs := fs } := by
  simp [synthesize_with_coqui, hl, hhit]

theorem synth_coqui_missing_wav (S : Settings) (env : Env) (mc mc2 : ModelCache)
    (fs : List String) (text : String) (model_name? speaker language : Option String)
    (p : String) (output_format : String) (tid : Nat) (ev : List Event)
    (hl : load_model env mc (model_name?.getD S.default_model) = (.ok tid, mc2, ev))
    (hl2 : mc2.models.lookup (get_model_key env (model_name?.getD S.default_model))
        = some tid)
    (hav : env.ttsAvailable = true)
    (hmiss : output_path_for S env text (model_name?.getD S.default_model) speaker language
        output_format ∉ fs)
    (hp : p ≠ "") (hpf : p ∉ fs) :
    synthesize_with_coqui S env mc fs text model_name? speaker (some p) language
        output_format
      = { result := .error
            ("Failed to synthesize speech: Speaker wav file not found: " ++ p),
          cache := mc2, events := ev, fs := fs } := by
  have hc := load_model_cached env mc2 (model_name?.getD S.default_model) tid hav hl2
  simp [synthesize_with_coqui, hl, hmiss, get_model_info, hc, pyTruthy, hp, hpf]

theorem synth_coqui_engine_call (S : Settings) (env : Env) (mc mc2 : ModelCache)
    (fs : List String) (text : String)
    (model_name? speaker speaker_wav language : Option String) (output_format : String)
    (tid : Nat) (ev : List Event)
    (hl : load_model env mc (model_name?.getD S.default_model) = (.ok tid, mc2, ev))
    (hl2 : mc2.models.lookup (get_model_key env (model_name?.getD S.default_model))
        = some tid)
    (hav : env.ttsAvailable = true)
    (hmiss : output_path_for S env text (model_name?.getD S.default_model) speaker language
        output_format ∉ fs)
    (hwav : pyTruthy speaker_wav = true → speaker_wav.getD "" ∈ fs) :
    ∃ call, synthesize_with_coqui S env mc fs text model_name? speaker speaker_wav language
        output_format
      = engineWrite env mc2 ev fs call
          (output_path_for S env text (model_name?.getD S.default_model) speaker language
            output_format) := by
  have hc := load_model_cached env mc2 (model_name?.getD S.default_model) tid hav hl2
  simp only [synthesize_with_coqui, hl, get_model_info, hc, List.append_nil]
  rw [if_neg hmiss]
  by_cases hw : pyTruthy speaker_wav = true
  · have hin := hwav hw
    simp only [hw, if_pos hin, if_true]
    split <;> exact ⟨_, rfl⟩
  · simp only [Bool.not_eq_true] at hw
    simp only [hw, Bool.false_eq_true, if_false]
    by_cases hms : (pyTruthy speaker && (env.speakers
        (model_name?.getD S.default_model)).isSome) = true
    · simp only [hms, if_true]
      exact ⟨_, rfl⟩
    · simp only [Bool.not_eq_true] at hms
      simp only [hms, Bool.false_eq_true, if_false]
      by_cases hf : env.hasTtsToFile (model_name?.getD S.default_model) = true
      · simp only [hf, if_true]
        split <;> exact ⟨_, rfl⟩
      · simp only [Bool.not_eq_true] at hf
        simp only [hf, Bool.false_eq_true, if_false]
        exact ⟨_, rfl⟩

theorem synth_coqui_preserves (S : Settings) (env : Env) (mc : ModelCache)
    (fs : List String) (text : String)
    (model_name? speaker speaker_wav language : Option String) (output_format : String) :
    mc.models ⊆ (synthesize_with_coqui S env mc fs text model_name? speaker speaker_wav
      language output_format).cache.models := by
  have h1 := load_model_preserves env mc (model_name?.getD S.default_model)
  unfold synthesize_with_coqui
  rcases hl : load_model env mc (model_name?.getD S.default_model) with ⟨r, mcL, evL⟩
  rw [hl] at h1
  cases r with
  | error e => simp only [hl]; simpa using h1
  | ok tid =>
      have h2 := get_model_info_preserves env mcL (model_name?.getD S.default_model)
      simp only [hl]
      by_cases hhit : output_path_for S env text (model_name?.getD S.default_model) speaker
          language output_format ∈ fs
      · simp only [if_pos hhit]
        exact h1
      · rw [if_neg hhit]
        rcases hg : get_model_info env mcL (model_name?.getD S.default_model)
          with ⟨rg, mcG, evG⟩
        rw [hg] at h2
        have h12 : mc.models ⊆ mcG.models := h1.trans h2
        cases rg with
        | error e => simp only [hg]; simpa using h12
        | ok info =>
            simp only [hg]
            split
            · split
              · split <;> simpa [engineWrite_cache] using h12
              · simpa using h12
            · split
              · simpa [engineWrite_cache] using h12
              · split
                · split <;> simpa [engineWrite_cache] using h12
                · simpa [engineWrite_cache] using h12

theorem synthesize_speech_preserves (S : Settings) (env : Env) (mc : ModelCache)
    (fs : List String) (text : String)
    (model_name? speaker speaker_wav language : Option String) (output_format : String) :
    mc.models ⊆ (synthesize_speech S env mc fs text model_name? speaker speaker_wav
      language output_format).cache.models := by
  unfold synthesize_speech
  split
  · exact List.Subset.refl _
  · split
    · exact List.Subset.refl _
    · split
      · exact List.Subset.refl _
      · exact synth_coqui_preserves S env mc fs text model_name? speaker speaker_wav
          language output_format

/-! ### C4 -/

/-- C4 counterexample: at time 10000 the hourly background sweep does not
delete `old.mp3`, a regular file of age 10000 seconds — far beyond the 3600
second threshold — because its name does not end in `.wav`. The claim that
every old regular file is deleted "regardless of the file's name or format" is
therefore false. -/
theorem c4_counterexample :
    oldMp3.isFile = true ∧ (10000 : Int) - oldMp3.ctime > 3600 ∧
    cleanup_task_iteration 10000 [oldMp3] = ([oldMp3], 0) := by
  refine ⟨rfl, by decide, by decide⟩

/-- C4 (amended): each iteration of the background cleanup timer deletes from
the output directory exactly the regular files whose name ends in `.wav`, whose
age strictly exceeds 3600 seconds, and whose removal succeeds; a file whose
name does not end in `.wav` is never deleted by the background timer. -/
theorem c4_hourly_sweep_deletes_only_old_wav (now : Int) (dir : List DirEntry) :
    (cleanup_task_iteration now dir).1 = dir.filter (fun e => !hourlyRemoves now e) ∧
    (∀ e ∈ dir, hourlyRemoves now e = true → e ∉ (cleanup_task_iteration now dir).1) ∧
    (∀ e ∈ dir, strEndsWith e.name ".wav" = false →
      e ∈ (cleanup_task_iteration now dir).1) := by
  rw [cleanup_task_iteration_eq]
  refine ⟨rfl, ?_, ?_⟩
  · intro e he hrem hmem
    rcases List.mem_filter.mp hmem with ⟨-, hkeep⟩
    simp [hrem] at hkeep
  · intro e he hwav
    exact List.mem_filter.mpr ⟨he, by simp [hourlyRemoves, hwav]⟩

/-- Witness for `c4_hourly_sweep_deletes_only_old_wav` at a concrete directory:
the old `.wav` file is removed, the old `.mp3` file survives. -/
theorem c4_hourly_sweep_deletes_only_old_wav_witness :
    oldWav ∉ (cleanup_task_iteration 10000 [oldMp3, oldWav]).1 ∧
    oldMp3 ∈ (cleanup_task_iteration 10000 [oldMp3, oldWav]).1 := by
  have h := c4_hourly_sweep_deletes_only_old_wav 10000 [oldMp3, oldWav]
  exact ⟨h.2.1 oldWav (by simp) (by decide), h.2.2 oldMp3 (by simp) (by decide)⟩

/-! ### C6 -/

/-- C6 counterexample: a sweep invoked with `maxAgeHours = 0` at time 100 does
not remove `fresh.wav`, a regular file created at time 100: its age 0 is not
strictly greater than 0, so the claim that every file is removed "regardless of
its age" is false. -/
theorem c6_counterexample :
    freshWav.isFile = true ∧
    cleanup_old_files 100 true [freshWav] 0 = ([freshWav], none, 0) :=
  ⟨rfl, by decide⟩

/-- C6 (amended): a sweep with `maxAgeHours = 0` removes every regular file
whose creation time is strictly before the sweep time and whose removal
succeeds, and a sweep whose `maxAgeHours` is large enough that no file's age
exceeds `maxAgeHours * 3600` seconds removes no file. -/
theorem c6_sweep_zero_and_large (now maxH : Int) (dir : List DirEntry)
    (hbig : ∀ e ∈ dir, now - e.ctime ≤ maxH * 3600) :
    (∀ e ∈ dir, e.isFile = true → e.ctime < now → e.removeOk = true →
       e ∉ (cleanup_old_files now true dir 0).1) ∧
    (cleanup_old_files now true dir maxH).1 = dir ∧
    (cleanup_old_files now true dir maxH).2.2 = 0 := by
  simp only [cleanup_old_files, Bool.not_true, if_neg, reduceIte, sweepFiles_eq]
  refine ⟨?_, ?_, ?_⟩
  · intro e he hf hct hrm hmem
    rcases List.mem_filter.mp hmem with ⟨-, hkeep⟩
    have : sweepRemoves now 0 e = true := by
      simp [sweepRemoves, hf, hrm]
      omega
    simp [this] at hkeep
  · exact List.filter_eq_self.mpr fun e he => by
      have := hbig e he
      simp [sweepRemoves]
      omega
  · exact List.countP_eq_zero.mpr fun e he => by
      have := hbig e he
      simp [sweepRemoves]
      omega

/-- Witness for `c6_sweep_zero_and_large`: at time 10000, `mid.wav` (created at
time 9000) is removed by a `maxAgeHours = 0` sweep and kept by a
`maxAgeHours = 1` sweep. -/
theorem c6_sweep_zero_and_large_witness :
    midWav ∉ (cleanup_old_files 10000 true [midWav] 0).1 ∧
    (cleanup_old_files 10000 true [midWav] 1).1 = [midWav] := by
  have h := c6_sweep_zero_and_large 10000 1 [midWav] (by decide)
  exact ⟨h.1 midWav (by simp) rfl (by decide) rfl, h.2.1⟩

/-! ### C7 -/

/-- C7 counterexample: at time 100000 a sweep with `maxAgeHours = 24` removes
the 100000-second-old file `old.wav` (the directory empties and the internal
counter reads 1), yet the function's return value is `None`, not the count of
files removed. -/
theorem c7_counterexample :
    cleanup_old_files 100000 true [oldWav] 24 = ([], none, 1) := by decide

/-- C7 (amended): `cleanup_old_files` removes the eligible files and counts
them internally (the count is only logged), but its Python return value is
`None` on every path — for every directory state, including a missing output
directory — rather than the count of files removed. -/
theorem c7_sweep_returns_none (now : Int) (dirExists : Bool) (dir : List DirEntry)
    (maxH : Int) :
    (cleanup_old_files now dirExists dir maxH).2.1 = none := by
  by_cases h : dirExists <;> simp [cleanup_old_files, h]

/-! ### Further helper lemmas for the synthesis claims -/

theorem synthesize_speech_ok (S : Settings) (env : Env) (mc : ModelCache)
    (fs : List String) (text : String)
    (model_name? speaker speaker_wav language : Option String) (output_format : String)
    (hlen : ¬ text.length > S.max_text_length) (hne : ¬ pyStrip text = "")
    (hav : env.ttsAvailable = true)
    (hload : env.engineLoadOk (model_name?.getD S.default_model) = true)
    (hsynth : env.synthOk = true)
    (hwav : pyTruthy speaker_wav = true → speaker_wav.getD "" ∈ fs) :
    let P := output_path_for S env text (model_name?.getD S.default_model) speaker language
      output_format
    let r := synthesize_speech S env mc fs text model_name? speaker speaker_wav language
      output_format
    r.result = .ok P ∧ P ∈ r.fs ∧
      ∃ tid, r.cache.models.lookup
        (get_model_key env (model_name?.getD S.default_model)) = some tid := by
  intro P r
  obtain ⟨tid, mc2, ev, hl, hsub, hl2, hev⟩ :=
    load_model_ok env mc (model_name?.getD S.default_model) hav hload
  have hv := synthesize_speech_valid S env mc fs text model_name? speaker speaker_wav
    language output_format hlen hne hav
  by_cases hhit : P ∈ fs
  · have h1 : r = { result := .ok P, cache := mc2, events := ev, fs := fs } := by
      show synthesize_speech S env mc fs text model_name? speaker speaker_wav language
        output_format = _
      rw [hv]
      exact synth_coqui_cache_hit S env mc mc2 fs text model_name? speaker speaker_wav
        language output_format tid ev hl hhit
    rw [h1]
    exact ⟨rfl, hhit, tid, hl2⟩
  · obtain ⟨call, hcall⟩ := synth_coqui_engine_call S env mc mc2 fs text model_name?
      speaker speaker_wav language output_format tid ev hl hl2 hav hhit hwav
    have h1 : r = engineWrite env mc2 ev fs call P := by
      show synthesize_speech S env mc fs text model_name? speaker speaker_wav language
        output_format = _
      rw [hv]
      exact hcall
    rw [h1]
    exact ⟨by simp [engineWrite, hsynth], by simp [engineWrite, hsynth], tid,
      by simp [engineWrite, hsynth, hl2]⟩

/-! ### C1 -/

/-- C1: for a valid request the returned artifact path is
`output_path_for`, a pure function of (text, model, speaker, language) plus the
format extension — so identical tuples yield identical cache keys — and a
second identical request finds that artifact on disk and returns the same path
with no synthesis-engine call and no new file: synthesis is idempotent and
at-most-once per input tuple. -/
theorem c1_cache_key_idempotent_at_most_once (S : Settings) (env : Env)
    (mc : ModelCache) (fs : List String) (text : String)
    (model_name? speaker speaker_wav language : Option String) (output_format : String)
    (hlen : ¬ text.length > S.max_text_length) (hne : ¬ pyStrip text = "")
    (hav : env.ttsAvailable = true)
    (hload : env.engineLoadOk (model_name?.getD S.default_model) = true)
    (hsynth : env.synthOk = true)
    (hwav : pyTruthy speaker_wav = true → speaker_wav.getD "" ∈ fs) :
    let P := output_path_for S env text (model_name?.getD S.default_model) speaker language
      output_format
    let r1 := synthesize_speech S env mc fs text model_name? speaker speaker_wav language
      output_format
    let r2 := synthesize_speech S env r1.cache r1.fs text model_name? speaker speaker_wav
      language output_format
    r1.result = .ok P ∧ P ∈ r1.fs ∧ r2.result = .ok P ∧ r2.fs = r1.fs ∧
      ∀ c, Event.synth c ∉ r2.events := by
  intro P r1 r2
  obtain ⟨h1, h2, tid, h3⟩ := synthesize_speech_ok S env mc fs text model_name? speaker
    speaker_wav language output_format hlen hne hav hload hsynth hwav
  have hl2 := load_model_cached env r1.cache (model_name?.getD S.default_model) tid hav h3
  have hv2 := synthesize_speech_valid S env r1.cache r1.fs text model_name? speaker
    speaker_wav language output_format hlen hne hav
  have h4 : r2 = { result := .ok P, cache := r1.cache, events := [], fs := r1.fs } := by
    show synthesize_speech S env r1.cache r1.fs text model_name? speaker speaker_wav
      language output_format = _
    rw [hv2]
    exact synth_coqui_cache_hit S env r1.cache r1.cache r1.fs text model_name? speaker
      speaker_wav language output_format tid [] hl2 h2
  rw [h4]
  exact ⟨h1, h2, rfl, rfl, by simp⟩

/-- Witness for `c1_cache_key_idempotent_at_most_once`: the request
(text "hi", default model, format "wav") against an empty filesystem succeeds
and, replayed on the resulting state, returns the same path with no synthesis
event. -/
theorem c1_cache_key_idempotent_at_most_once_witness :
    (synthesize_speech settings idEnv emptyCache [] "hi" none none none none "wav").result
      = .ok hiPath ∧
    (synthesize_speech settings idEnv
        (synthesize_speech settings idEnv emptyCache [] "hi" none none none none
          "wav").cache
        (synthesize_speech settings idEnv emptyCache [] "hi" none none none none "wav").fs
        "hi" none none none none "wav").result = .ok hiPath ∧
    ∀ c, Event.synth c ∉ (synthesize_speech settings idEnv
        (synthesize_speech settings idEnv emptyCache [] "hi" none none none none
          "wav").cache
        (synthesize_speech settings idEnv emptyCache [] "hi" none none none none "wav").fs
        "hi" none none none none "wav").events := by
  have h := c1_cache_key_idempotent_at_most_once settings idEnv emptyCache [] "hi"
    none none none none "wav" (by decide) (by decide) rfl rfl rfl (by intro h; cases h)
  exact ⟨h.1, h.2.2.1, h.2.2.2.2⟩

/-! ### C2 -/

/-- C2 counterexample: `tts_models/en/ljspeech/neural_hmm` is not in the
configured allowlist, yet when the engine can construct it `get_model_info`
succeeds and the endpoint answers 200, not 400: the allowlist is never
consulted on this path. -/
theorem c2_counterexample :
    "tts_models/en/ljspeech/neural_hmm" ∉ settings.available_models ∧
    (http_get_model_info idEnv emptyCache "tts_models/en/ljspeech/neural_hmm").1
      = 200 := by
  exact ⟨by decide, by decide⟩

/-- C2 (amended): `get_model_info` does not consult the configured allowlist;
the model-info endpoint answers 400 exactly when the model is not already
cached and the engine cannot construct it, and 200 otherwise. -/
theorem c2_model_info_400_iff_load_fails (env : Env) (mc : ModelCache) (m : String)
    (hav : env.ttsAvailable = true) :
    ((http_get_model_info env mc m).1 = 400 ↔
      mc.models.lookup (get_model_key env m) = none ∧ env.engineLoadOk m = false) ∧
    ((http_get_model_info env mc m).1 = 400 ∨ (http_get_model_info env mc m).1 = 200) := by
  unfold http_get_model_info get_model_info load_model
  rcases hc : mc.models.lookup (get_model_key env m) with _ | tid
  · by_cases hL : env.engineLoadOk m <;> simp [hav, hc, hL]
  · simp [hav, hc]

/-- Witness for `c2_model_info_400_iff_load_fails`: with an engine that cannot
construct any model, the endpoint answers 400 on an empty cache. -/
theorem c2_model_info_400_iff_load_fails_witness :
    (http_get_model_info noLoadEnv emptyCache "m").1 = 400 := by
  have h := c2_model_info_400_iff_load_fails noLoadEnv emptyCache "m" rfl
  exact h.1.mpr ⟨rfl, rfl⟩

/-! ### C3 -/

/-- C3 counterexample: for the request (text "hi", default model, speaker
reference "/missing.wav" absent from the filesystem) against an empty cache,
`synthesize_speech` does fail with a `ValueError`, but only after
`TTS(model_name)` has been invoked — the events contain the model load — so
validation is not rejected "before any expensive work (such as model loading)
begins". -/
theorem c3_counterexample :
    (synthesize_speech settings idEnv emptyCache [] "hi" none none
        (some "/missing.wav") none "wav").result
      = .error "Failed to synthesize speech: Speaker wav file not found: /missing.wav" ∧
    Event.modelLoad "tts_models/multilingual/multi-dataset/xtts_v2"
      ∈ (synthesize_speech settings idEnv emptyCache [] "hi" none none
          (some "/missing.wav") none "wav").events := by
  exact ⟨rfl, by decide⟩

/-- C3 (amended): on a cache miss, a request whose non-empty speaker reference
path does not exist fails with a `ValueError` before any synthesis-engine call
and leaves the filesystem unchanged, but only after the model has been loaded:
the events of the call are exactly the model load. -/
theorem c3_missing_speaker_fails_after_model_load (S : Settings) (env : Env)
    (mc : ModelCache) (fs : List String) (text : String)
    (model_name? speaker language : Option String) (p : String) (output_format : String)
    (hlen : ¬ text.length > S.max_text_length) (hne : ¬ pyStrip text = "")
    (hav : env.ttsAvailable = true)
    (hload : env.engineLoadOk (model_name?.getD S.default_model) = true)
    (hmc : mc.models.lookup (get_model_key env (model_name?.getD S.default_model)) = none)
    (hmiss : output_path_for S env text (model_name?.getD S.default_model) speaker language
        output_format ∉ fs)
    (hp : p ≠ "") (hpf : p ∉ fs) :
    let r := synthesize_speech S env mc fs text model_name? speaker (some p) language
      output_format
    r.result = .error ("Failed to synthesize speech: Speaker wav file not found: " ++ p) ∧
    (∀ c, Event.synth c ∉ r.events) ∧
    r.events = [Event.modelLoad (model_name?.getD S.default_model)] ∧
    r.fs = fs := by
  intro r
  have hl := load_model_miss env mc (model_name?.getD S.default_model) hav hload hmc
  have hl2 :=
    @lookup_append_none mc.models (get_model_key env (model_name?.getD S.default_model))
      mc.nextId hmc
  have hv := synthesize_speech_valid S env mc fs text model_name? speaker (some p)
    language output_format hlen hne hav
  have h1 : r =
      { result := .error
          ("Failed to synthesize speech: Speaker wav file not found: " ++ p),
        cache := { models := mc.models ++
                     [(get_model_key env (model_name?.getD S.default_model), mc.nextId)],
                   nextId := mc.nextId + 1 },
        events := [Event.modelLoad (model_name?.getD S.default_model)], fs := fs } := by
    show synthesize_speech S env mc fs text model_name? speaker (some p) language
      output_format = _
    rw [hv]
    exact synth_coqui_missing_wav S env mc _ fs text model_name? speaker language p
      output_format mc.nextId _ hl hl2 hav hmiss hp hpf
  rw [h1]
  exact ⟨rfl, by simp, rfl, rfl⟩

/-- Witness for `c3_missing_speaker_fails_after_model_load` at the concrete
request of `c3_counterexample`'s shape but through the theorem. -/
theorem c3_missing_speaker_fails_after_model_load_witness :
    (synthesize_speech settings idEnv emptyCache [] "bye" none none
        (some "/gone.wav") none "wav").result
      = .error "Failed to synthesize speech: Speaker wav file not found: /gone.wav" ∧
    (synthesize_speech settings idEnv emptyCache [] "bye" none none
        (some "/gone.wav") none "wav").events
      = [Event.modelLoad "tts_models/multilingual/multi-dataset/xtts_v2"] := by
  have h := c3_missing_speaker_fails_after_model_load settings idEnv emptyCache [] "bye"
    none none none "/gone.wav" "wav" (by decide) (by decide) rfl rfl rfl (by decide)
    (by decide) (by decide)
  exact ⟨h.1, h.2.2.1⟩

/-! ### C5 -/

/-- C5 counterexample: when the engine call fails after writing an incomplete
file at the output path, `synthesize_speech` surfaces the error but the partial
file is still on the filesystem — `_synthesize_with_coqui` performs no cleanup
on its failure path. -/
theorem c5_counterexample :
    (synthesize_speech settings failEnv emptyCache [] "hi" none none none none
        "wav").result = .error "Failed to synthesize speech: engine error" ∧
    hiPath ∈ (synthesize_speech settings failEnv emptyCache [] "hi" none none none none
        "wav").fs := by
  exact ⟨rfl, by decide⟩

/-- C5 (amended): the `/tts` endpoint removes its private temporary directory
on failure, but `_synthesize_with_coqui` performs no cleanup at all on engine
failure: the filesystem afterwards is exactly what the engine left — the
incomplete output file remains whenever the engine wrote one before raising. -/
theorem c5_engine_failure_no_cleanup (S : Settings) (env : Env) (mc : ModelCache)
    (fs : List String) (text : String)
    (model_name? speaker speaker_wav language : Option String) (output_format : String)
    (hlen : ¬ text.length > S.max_text_length) (hne : ¬ pyStrip text = "")
    (hav : env.ttsAvailable = true)
    (hload : env.engineLoadOk (model_name?.getD S.default_model) = true)
    (hsynth : env.synthOk = false)
    (hmiss : output_path_for S env text (model_name?.getD S.default_model) speaker language
        output_format ∉ fs)
    (hwav : pyTruthy speaker_wav = true → speaker_wav.getD "" ∈ fs) :
    let P := output_path_for S env text (model_name?.getD S.default_model) speaker language
      output_format
    let r := synthesize_speech S env mc fs text model_name? speaker speaker_wav language
      output_format
    r.result = .error ("Failed to synthesize speech: " ++ env.synthErr) ∧
    r.fs = (if env.leftoverOnFail then fs ++ [P] else fs) := by
  intro P r
  obtain ⟨tid, mc2, ev, hl, hsub, hl2, hev⟩ :=
    load_model_ok env mc (model_name?.getD S.default_model) hav hload
  have hv := synthesize_speech_valid S env mc fs text model_name? speaker speaker_wav
    language output_format hlen hne hav
  obtain ⟨call, hcall⟩ := synth_coqui_engine_call S env mc mc2 fs text model_name?
    speaker speaker_wav language output_format tid ev hl hl2 hav hmiss hwav
  have h1 : r = engineWrite env mc2 ev fs call P := by
    show synthesize_speech S env mc fs text model_name? speaker speaker_wav language
      output_format = _
    rw [hv]
    exact hcall
  rw [h1]
  exact ⟨by simp [engineWrite, hsynth], by simp [engineWrite, hsynth]⟩

/-- Witness for `c5_engine_failure_no_cleanup` with the failing, partial-file
engine `failEnv`: the incomplete file is left on disk. -/
theorem c5_engine_failure_no_cleanup_witness :
    (synthesize_speech settings failEnv emptyCache [] "hi" none none none none
        "wav").result = .error "Failed to synthesize speech: engine error" ∧
    (synthesize_speech settings failEnv emptyCache [] "hi" none none none none
        "wav").fs = [hiPath] := by
  have h := c5_engine_failure_no_cleanup settings failEnv emptyCache [] "hi"
    none none none none "wav" (by decide) (by decide) rfl rfl rfl (by decide)
    (by intro h; cases h)
  exact ⟨h.1, h.2.trans (by decide)⟩

/-! ### C8 -/

/-- C8: a request whose text exceeds the configured maximum length fails with
the `ValueError` "Text too long..." immediately: no engine call is made, the
model cache is untouched and no output file is created. -/
theorem c8_text_too_long (S : Settings) (env : Env) (mc : ModelCache)
    (fs : List String) (text : String)
    (model_name? speaker speaker_wav language : Option String) (output_format : String)
    (hlen : text.length > S.max_text_length) :
    synthesize_speech S env mc fs text model_name? speaker speaker_wav language
        output_format
      = { result := .error ("Text too long. Maximum length is "
            ++ toString S.max_text_length ++ " characters"),
          cache := mc, events := [], fs := fs } := by
  simp [synthesize_speech, hlen]

/-- Witness for `c8_text_too_long`: a 1001-character text against the
configured maximum of 1000. -/
theorem c8_text_too_long_witness :
    (String.mk (List.replicate 1001 'a')).length > settings.max_text_length ∧
    (synthesize_speech settings idEnv emptyCache []
        (String.mk (List.replicate 1001 'a')) none none none none "wav").result
      = .error "Text too long. Maximum length is 1000 characters" ∧
    (synthesize_speech settings idEnv emptyCache []
        (String.mk (List.replicate 1001 'a')) none none none none "wav").fs = [] := by
  have hlen : (String.mk (List.replicate 1001 'a')).length > settings.max_text_length := by
    show (List.replicate 1001 'a').length > (1000 : Nat)
    rw [List.length_replicate]
    norm_num
  have h := c8_text_too_long settings idEnv emptyCache []
    (String.mk (List.replicate 1001 'a')) none none none none "wav" hlen
  rw [h]
  exact ⟨hlen, rfl, rfl⟩

/-! ### C9 -/

/-- C9: the model cache is never evicted and a cached model is reused: a
`load_model` on a cached key returns the stored instance with the cache
unchanged and no engine construction, and every operation — `load_model`,
`get_model_info`, `synthesize_speech` — preserves all existing cache
entries. -/
theorem c9_model_cache_resident_for_life (S : Settings) (env : Env) (mc : ModelCache)
    (m m2 m3 : String) (tid : Nat) (fs : List String) (text : String)
    (model_name? speaker speaker_wav language : Option String) (output_format : String)
    (hav : env.ttsAvailable = true)
    (hc : mc.models.lookup (get_model_key env m) = some tid) :
    load_model env mc m = (.ok tid, mc, []) ∧
    mc.models ⊆ (load_model env mc m2).2.1.models ∧
    mc.models ⊆ (get_model_info env mc m3).2.1.models ∧
    mc.models ⊆ (synthesize_speech S env mc fs text model_name? speaker speaker_wav
      language output_format).cache.models :=
  ⟨load_model_cached env mc m tid hav hc, load_model_preserves env mc m2,
    get_model_info_preserves env mc m3,
    synthesize_speech_preserves S env mc fs text model_name? speaker speaker_wav
      language output_format⟩

/-- Witness for `c9_model_cache_resident_for_life` on a cache holding "m": the
cached instance 0 is returned unchanged, and the entry survives a `load_model`
of a different model. -/
theorem c9_model_cache_resident_for_life_witness :
    load_model idEnv oneCache "m" = (.ok 0, oneCache, []) ∧
    ("m", 0) ∈ (load_model idEnv oneCache "other").2.1.models := by
  have h := c9_model_cache_resident_for_life settings idEnv oneCache "m" "other" "x"
    0 [] "hi" none none none none "wav" rfl rfl
  exact ⟨h.1, h.2.1 (by decide)⟩

/-! ### C10 -/

/-- C10: when the output artifact already exists at the request's cache key,
`synthesize_speech` returns that path with no synthesis call and no filesystem
change, even though the request's speaker reference path does not exist on
disk: the cache hit short-circuits speaker and capability validation. -/
theorem c10_cache_hit_skips_validation (S : Settings) (env : Env) (mc : ModelCache)
    (fs : List String) (text : String) (model_name? speaker language : Option String)
    (p : String) (output_format : String)
    (hlen : ¬ text.length > S.max_text_length) (hne : ¬ pyStrip text = "")
    (hav : env.ttsAvailable = true)
    (hload : env.engineLoadOk (model_name?.getD S.default_model) = true)
    (hpf : p ∉ fs)
    (hhit : output_path_for S env text (model_name?.getD S.default_model) speaker language
        output_format ∈ fs) :
    let r := synthesize_speech S env mc fs text model_name? speaker (some p) language
      output_format
    r.result = .ok (output_path_for S env text (model_name?.getD S.default_model) speaker
      language output_format) ∧
    r.fs = fs ∧ (∀ c, Event.synth c ∉ r.events) := by
  intro r
  obtain ⟨tid, mc2, ev, hl, hsub, hl2, hev⟩ :=
    load_model_ok env mc (model_name?.getD S.default_model) hav hload
  have hv := synthesize_speech_valid S env mc fs text model_name? speaker (some p)
    language output_format hlen hne hav
  have h1 : r =
      { result := .ok (output_path_for S env text (model_name?.getD S.default_model)
          speaker language output_format),
        cache := mc2, events := ev, fs := fs } := by
    show synthesize_speech S env mc fs text model_name? speaker (some p) language
      output_format = _
    rw [hv]
    exact synth_coqui_cache_hit S env mc mc2 fs text model_name? speaker (some p)
      language output_format tid ev hl hhit
  rw [h1]
  exact ⟨rfl, rfl, hev⟩

/-- Witness for `c10_cache_hit_skips_validation`: with the artifact already on
disk, the request with the absent reference "/missing.wav" still succeeds and
makes no synthesis call. -/
theorem c10_cache_hit_skips_validation_witness :
    ("/missing.wav" ∉ ([hiPath] : List String)) ∧
    (synthesize_speech settings idEnv emptyCache [hiPath] "hi" none none
        (some "/missing.wav") none "wav").result = .ok hiPath ∧
    ∀ c, Event.synth c ∉ (synthesize_speech settings idEnv emptyCache [hiPath] "hi"
        none none (some "/missing.wav") none "wav").events := by
  have h := c10_cache_hit_skips_validation settings idEnv emptyCache [hiPath] "hi"
    none none none "/missing.wav" "wav" (by decide) (by decide) rfl rfl (by decide)
    (by decide)
  exact ⟨by decide, h.1, h.2.2⟩

end TTSApi
